import Mathlib

/-
Verification development for the caproto client/server subset consisting of
`caproto/client/common.py` (tuning constants and the client exception
hierarchy) and `caproto/curio/high_level_server.py` (the PV-group server
DSL: `PVSpec`, `pvproperty`, `SubGroup`, `PVGroupMeta`, `PVGroupBase`).

The Python code is shallowly embedded: pure computations become Lean
functions, fallible Python code returns `Except PyExc`, dictionaries with
insertion order (`OrderedDict`, Python 3.7+ `dict`) become association
lists with an `odInsert` operation that updates in place or appends.
-/

set_option maxHeartbeats 1000000

namespace Caproto

/-! ## Module-level constants from `caproto/client/common.py` -/

def CIRCUIT_DEATH_ATTEMPTS : Nat := 3

def AUTOMONITOR_MAXLENGTH : Nat := 65536

def TIMEOUT : Nat := 2

def EVENT_ADD_BATCH_MAX_BYTES : Nat := 2 ^ 16

def MIN_RETRY_SEARCHES_INTERVAL : Rat := 3 / 100

def MAX_RETRY_SEARCHES_INTERVAL : Rat := 5

def SEARCH_RETIREMENT_AGE : Nat := 8 * 60

def RETRY_RETIRED_SEARCHES_INTERVAL : Nat := 60

def RESTART_SUBS_PERIOD : Rat := 1 / 10

/-! ## The exception classes of `caproto/client/common.py`

The file defines `ChannelReadError(Exception)` near the top, then later
`ClientException(Exception)` and re-defines `ChannelReadError` as
`ChannelReadError(ClientException)`, together with
`DisconnectedError(ClientException)` and
`ContextDisconnectedError(ClientException)`.  We model each `class`
statement as a distinct class value with its declared base, and the module
namespace as a sequence of name bindings where a later binding shadows an
earlier one. -/

inductive PyClass where
  | Exception
  | ChannelReadError0
  | ClientException
  | ChannelReadError
  | DisconnectedError
  | ContextDisconnectedError
deriving DecidableEq, Repr

/-- The declared base class of each `class` statement in the file
(`Exception` is the Python builtin root of this hierarchy). -/
def pyBase : PyClass → Option PyClass
  | .Exception => none
  | .ChannelReadError0 => some .Exception
  | .ClientException => some .Exception
  | .ChannelReadError => some .ClientException
  | .DisconnectedError => some .ClientException
  | .ContextDisconnectedError => some .ClientException

/-- Fuel-bounded walk up the base-class chain; 6 exceeds the depth of the
hierarchy above. -/
def issubclassFuel : Nat → PyClass → PyClass → Bool
  | 0, _, _ => false
  | n + 1, a, b =>
    a = b ||
      (match pyBase a with
       | some p => issubclassFuel n p b
       | none => false)

/-- Python `issubclass` on the classes defined in the module. -/
def issubclass (a b : PyClass) : Bool := issubclassFuel 6 a b

/-- The module executes its `class` statements top to bottom; each binds the
class name at module level, with a later binding shadowing an earlier one.
`ChannelReadError` is bound twice: line 17 (`Exception` base) and line 79
(`ClientException` base). -/
def moduleBindings : List (String × PyClass) :=
  [("ChannelReadError", .ChannelReadError0),
   ("ClientException", .ClientException),
   ("ChannelReadError", .ChannelReadError),
   ("DisconnectedError", .DisconnectedError),
   ("ContextDisconnectedError", .ContextDisconnectedError)]

/-- Looking a name up in the module namespace: the last binding wins. -/
def moduleLookup (nm : String) : Option PyClass :=
  (moduleBindings.reverse.find? (fun p => p.1 == nm)).map (fun p => p.2)

/-! ## `GLOBAL_DEFAULT_TIMEOUT` (line 31 of `client/common.py`)

`GLOBAL_DEFAULT_TIMEOUT = os.environ.get("CAPROTO_DEFAULT_TIMEOUT", 2)`.
`os.environ.get` returns the *string* value of the variable when set, and
the default (here the `int` 2) when unset; no numeric conversion happens.
The process environment is modelled as an association list. -/

inductive PyScalar where
  | int : Int → PyScalar
  | str : String → PyScalar
deriving DecidableEq, Repr

/-- `os.environ.get(key, default)`. -/
def environGet (environ : List (String × String)) (key : String)
    (default : PyScalar) : PyScalar :=
  match environ.find? (fun p => p.1 == key) with
  | some p => .str p.2
  | none => default

def GLOBAL_DEFAULT_TIMEOUT (environ : List (String × String)) : PyScalar :=
  environGet environ "CAPROTO_DEFAULT_TIMEOUT" (.int 2)

/-! ## Search retry backoff (spec-modelled)

Only the tuning constants `MIN_RETRY_SEARCHES_INTERVAL` and
`MAX_RETRY_SEARCHES_INTERVAL` are under `src/`; the SearchCache retry
scheduler itself is not. -/

/-- Modelled from the spec: the SearchCache's `note_unresolved` schedules a
retry "using exponential backoff bounded between a minimum interval and a
maximum interval (doubling each failed attempt, capped at the maximum,
never below the minimum)".  One failed attempt maps the current retry
interval to its double, capped at `MAX_RETRY_SEARCHES_INTERVAL`. -/
def nextRetryInterval (current : Rat) : Rat :=
  min (2 * current) MAX_RETRY_SEARCHES_INTERVAL

/-- Modelled from the spec: the retry interval in force after `n` failed
discovery attempts; the first interval is `MIN_RETRY_SEARCHES_INTERVAL`. -/
def retryIntervalAfter : Nat → Rat
  | 0 => MIN_RETRY_SEARCHES_INTERVAL
  | n + 1 => nextRetryInterval (retryIntervalAfter n)

/-! ## Context construction tunables (spec-modelled)

`Context.__init__` is not under `src/` (the file keeps only the
module-level constants); the spec's configuration surface says every
numeric tunable is overridable at Context construction. -/

/-- Modelled from the spec: the per-Context copies of the numeric tunables
named in the configuration surface. -/
structure ContextTunables where
  min_retry_searches_interval : Rat
  max_retry_searches_interval : Rat
  search_retirement_age : Rat
  retry_retired_searches_interval : Rat
  restart_subs_period : Rat
  circuit_death_attempts : Nat
  event_add_batch_max_bytes : Nat
  default_timeout : Rat
deriving DecidableEq, Repr

/-- Modelled from the spec: Context construction takes one optional
override per tunable, each defaulting to the module-level constant of
`client/common.py`. -/
def Context.construct (minRetry maxRetry retirementAge retryRetired
    restartSubs : Option Rat) (deathAttempts batchMaxBytes : Option Nat)
    (defaultTimeout : Option Rat) : ContextTunables where
  min_retry_searches_interval := minRetry.getD MIN_RETRY_SEARCHES_INTERVAL
  max_retry_searches_interval := maxRetry.getD MAX_RETRY_SEARCHES_INTERVAL
  search_retirement_age := retirementAge.getD (SEARCH_RETIREMENT_AGE : Nat)
  retry_retired_searches_interval :=
    retryRetired.getD (RETRY_RETIRED_SEARCHES_INTERVAL : Nat)
  restart_subs_period := restartSubs.getD RESTART_SUBS_PERIOD
  circuit_death_attempts := deathAttempts.getD CIRCUIT_DEATH_ATTEMPTS
  event_add_batch_max_bytes := batchMaxBytes.getD EVENT_ADD_BATCH_MAX_BYTES
  default_timeout := defaultTimeout.getD (TIMEOUT : Nat)

/-! ## Python exceptions raised by the embedded code -/

inductive PyExc where
  | TypeError
  | IndexError
  | KeyError
  | AssertionError
  | RuntimeError
  | RecursionError
  | DisconnectedError
deriving DecidableEq, Repr

/-! ## Circuit death (spec-modelled)

The Circuit class is not under `src/` (only `CIRCUIT_DEATH_ATTEMPTS` is);
the spec's lifecycle says that after `CIRCUIT_DEATH_ATTEMPTS` consecutive
failed connect/reconnect attempts the Circuit transitions to the terminal
`Dead` state, every pending and future operation fails with
`DisconnectedError`, the Circuit is evicted from the Context registry and
no further reconnect attempts occur. -/

inductive CircuitState where
  | Unconnected
  | Connecting
  | Connected
  | Disconnecting
  | Disconnected
  | Dead
deriving DecidableEq, Repr

structure Circuit where
  state : CircuitState
  failedConnectAttempts : Nat
deriving DecidableEq, Repr

/-- Modelled from the spec: record one failed connect/reconnect attempt;
on reaching `CIRCUIT_DEATH_ATTEMPTS` consecutive failures the Circuit
becomes `Dead`, otherwise it stays `Disconnected` awaiting the next
attempt. -/
def Circuit.noteConnectFailure (c : Circuit) : Circuit :=
  let n := c.failedConnectAttempts + 1
  if CIRCUIT_DEATH_ATTEMPTS ≤ n then ⟨.Dead, n⟩ else ⟨.Disconnected, n⟩

/-- Modelled from the spec: the reconnect loop retries a connect only while
the Circuit is not `Dead`; a `Dead` circuit is left untouched (no further
reconnect attempts occur). -/
def Circuit.reconnectStep (c : Circuit) (succeeds : Bool) : Circuit :=
  if c.state = .Dead then c
  else if succeeds then ⟨.Connected, 0⟩
  else c.noteConnectFailure

/-- Modelled from the spec: submitting any pending or future operation on a
`Dead` circuit fails with `DisconnectedError`. -/
def Circuit.submitOp (c : Circuit) : Except PyExc Unit :=
  if c.state = .Dead then .error .DisconnectedError else .ok ()

/-- Modelled from the spec: once a circuit dies it is evicted from the
Context's registry of live circuits (keyed by server address). -/
def Context.evictDeadCircuits (registry : List (String × Circuit)) :
    List (String × Circuit) :=
  registry.filter (fun p => p.2.state ≠ .Dead)

/-! ## Subscription event batching (spec-modelled)

The subscription delivery loop is not under `src/` (only
`EVENT_ADD_BATCH_MAX_BYTES` is); the spec says event data is accumulated
and delivered to the callback in batches bounded by a maximum encoded byte
size, with un-delivered elements past the byte cap dropped rather than
delivered.  Events are represented by their encoded sizes in bytes. -/

/-- Modelled from the spec: add one event to the accumulating batch; when
the event no longer fits under `cap` the accumulated batch is delivered
(moved to the finished list — an empty accumulated batch is never
delivered) and a new batch starts with that event.  The cap bounds every
delivered batch: an element past the byte cap is dropped rather than
delivered, so an event larger than the cap by itself — with nothing older
left to drop in its batch — is itself dropped. -/
def addEventToBatches (cap : Nat) (st : List (List Nat) × List Nat)
    (e : Nat) : List (List Nat) × List Nat :=
  if st.2.sum + e ≤ cap then (st.1, st.2 ++ [e])
  else ((if st.2 = [] then st.1 else st.1 ++ [st.2]),
        if e ≤ cap then [e] else [])

/-- Modelled from the spec: split a stream of event sizes into the batches
the callback sees, each bounded by `cap`; the final partial batch is
delivered at the end. -/
def batchEvents (cap : Nat) (events : List Nat) : List (List Nat) :=
  let st := events.foldl (addEventToBatches cap) ([], [])
  if st.2 = [] then st.1 else st.1 ++ [st.2]

/-! ## Python values and types, as used by `curio/high_level_server.py`

Python floats are modelled as rationals; only the type tag of a value
matters to the DSL (`type(value[0])` picks the dtype). -/

inductive Dtype where
  | int
  | float
  | str
  | listType
deriving DecidableEq, Repr

inductive PyValue where
  | int : Int → PyValue
  | float : Rat → PyValue
  | str : String → PyValue
  | list : List PyValue → PyValue

/-- Python `type(v)` restricted to the values above. -/
def PyValue.typeOf : PyValue → Dtype
  | .int _ => .int
  | .float _ => .float
  | .str _ => .str
  | .list _ => .listType

/-- Python `v[0]`: lists and strings are subscriptable (raising
`IndexError` when empty; indexing a string yields a one-character string),
ints and floats are not subscriptable and raise `TypeError`. -/
def PyValue.getitem0 : PyValue → Except PyExc PyValue
  | .list [] => .error .IndexError
  | .list (v :: _) => .ok v
  | .str s =>
    match s.data with
    | [] => .error .IndexError
    | c :: _ => .ok (.str (String.mk [c]))
  | .int _ => .error .TypeError
  | .float _ => .error .TypeError

/-- A Python callable as `PVSpec.__new__` inspects it:
`inspect.iscoroutinefunction(f)`, whether `inspect.signature(f)` can bind
two positional arguments `('group', 'instance')`, whether it can bind
three `('group', 'instance', 'value')`, and (for putters) the value
transformation the coroutine performs when awaited. -/
structure PyCallable where
  isCoroutineFunction : Bool
  bindsGroupInstance : Bool
  bindsGroupInstanceValue : Bool
  impl : PyValue → PyValue

/-! ## `PVSpec` (lines 57-96 of `curio/high_level_server.py`) -/

structure PVSpec where
  get : Option PyCallable
  put : Option PyCallable
  attr : Option String
  name : Option String
  dtype : Dtype
  value : Option PyValue
  alarm_group : Option String

def PVSpec.default_dtype : Dtype := .int

/-- Lines 65-67: `dtype = (type(value[0]) if value is not None else
cls.default_dtype)` when the `dtype` argument is `None`; the `value[0]`
subscript is unguarded. -/
def inferDtype : Option Dtype → Option PyValue → Except PyExc Dtype
  | some d, _ => .ok d
  | none, some v => (PyValue.getitem0 v).map PyValue.typeOf
  | none, none => .ok PVSpec.default_dtype

/-- Lines 69-76: `assert inspect.iscoroutinefunction(get)` (a failing
`assert` raises `AssertionError`), then `sig.bind('group', 'instance')`
with any exception converted to `RuntimeError`. -/
def checkGetter : Option PyCallable → Except PyExc Unit
  | none => .ok ()
  | some g =>
    if ¬g.isCoroutineFunction then .error .AssertionError
    else if ¬g.bindsGroupInstance then .error .RuntimeError
    else .ok ()

/-- Lines 78-85: the same checks for `put`, binding
`('group', 'instance', 'value')`. -/
def checkPutter : Option PyCallable → Except PyExc Unit
  | none => .ok ()
  | some p =>
    if ¬p.isCoroutineFunction then .error .AssertionError
    else if ¬p.bindsGroupInstanceValue then .error .RuntimeError
    else .ok ()

/-- `PVSpec.__new__` (lines 63-88): infer the dtype, validate the getter,
validate the putter, then build the namedtuple. -/
def PVSpec.new (g p : Option PyCallable) (attr nm : Option String)
    (dtype : Option Dtype) (value : Option PyValue) (ag : Option String) :
    Except PyExc PVSpec :=
  match inferDtype dtype value with
  | .error e => .error e
  | .ok dt =>
    match checkGetter g with
    | .error e => .error e
    | .ok _ =>
      match checkPutter p with
      | .error e => .error e
      | .ok _ => .ok ⟨g, p, attr, nm, dt, value, ag⟩

/-- `PVSpec.new_names` (lines 90-96): replace `attr`/`name`, falling back
to the current values when the argument is `None`. -/
def PVSpec.new_names (s : PVSpec) (attrOpt nameOpt : Option String) : PVSpec :=
  { s with
    attr := match attrOpt with | some a => some a | none => s.attr
    name := match nameOpt with | some n => some n | none => s.name }

/-- `pvproperty.__set_name__` (lines 209-216): update the pvspec with the
attribute name, using the attribute name as the PV name when no explicit
name was given. -/
def pvproperty.set_name (spec : PVSpec) (attrName : String) : PVSpec :=
  spec.new_names (some attrName)
    (some (match spec.name with | some n => n | none => attrName))

/-! ## Default read/write paths (`PvpropertyData`, `PVGroupBase.group_write`) -/

/-- `PVGroupBase.group_write` (lines 388-391): the generic write handler
logs and returns its `value` argument unchanged. -/
def PVGroupBase.group_write (value : PyValue) : PyValue :=
  value

/-- `PvpropertyData.__init__` (lines 20-22): the putter is the bound
`pvspec.put` when one was given, and the group's `group_write` otherwise. -/
def PvpropertyData.putter (pvspec : PVSpec) : PyValue → PyValue :=
  match pvspec.put with
  | some c => c.impl
  | none => PVGroupBase.group_write

/-- `PvpropertyData.verify_value` (lines 37-42): logs, then returns
`await self.putter(self, value)`. -/
def PvpropertyData.verify_value (pvspec : PVSpec) (value : PyValue) : PyValue :=
  PvpropertyData.putter pvspec value

/-! ## Ordered dictionaries

`PVGroupMeta.__prepare__` returns an `OrderedDict`, and every table the
DSL builds (`_subgroups_`, `_pvs_`, `pvdb`, `attr_pvdb`, `groups`) is an
`OrderedDict` (or an insertion-ordered Python `dict`).  Assignment
`d[k] = v` updates the value in place when `k` is present and appends a
new entry otherwise. -/

def odInsert {α : Type} (d : List (String × α)) (k : String) (v : α) :
    List (String × α) :=
  if d.any (fun p => p.1 == k) then
    d.map (fun p => if p.1 == k then (k, v) else p)
  else d ++ [(k, v)]

/-- Assign every entry of `l` into `d` in order (`dict.update`, and the
accumulation loops of `PVGroupMeta.__new__`). -/
def odExtend {α : Type} (d : List (String × α)) (l : List (String × α)) :
    List (String × α) :=
  l.foldl (fun acc p => odInsert acc p.1 p.2) d

/-- Plain dictionary subscript `d[k]`, raising `KeyError` when absent. -/
def dictGet {α : Type} (d : List (String × α)) (k : String) :
    Except PyExc α :=
  match d.find? (fun p => p.1 == k) with
  | some p => .ok p.2
  | none => .error .KeyError

/-- Split a character list on `'.'` (Python `s.split('.')`). -/
def splitDot : List Char → List (List Char)
  | [] => [[]]
  | c :: rest =>
    match splitDot rest with
    | [] => [[c]]
    | h :: t => if c = '.' then [] :: h :: t else (c :: h) :: t

/-- Rejoin with `'.'` what `splitDot` split (Python `'.'.join(parts)`). -/
def joinDot : List (List Char) → List Char
  | [] => []
  | [x] => x
  | x :: y :: t => x ++ '.' :: joinDot (y :: t)

/-- Python `s.rsplit('.', 1)` for a separator that occurs at least once:
`some (before, after)` splits at the last dot, `none` when `'.' not in s`. -/
def rsplitDot (s : String) : Option (String × String) :=
  match (splitDot s.data).reverse with
  | [] => none
  | [_] => none
  | last :: revInit =>
    some (String.mk (joinDot revInit.reverse), String.mk last)

/-- Whether one character list is a prefix of another. -/
def isPrefixList : List Char → List Char → Bool
  | [], _ => true
  | _ :: _, [] => false
  | a :: as, b :: bs => a = b && isPrefixList as bs

/-- Python `s.replace(pat, sub)` on character lists: scan left to right,
replacing each non-overlapping occurrence of the (non-empty) pattern.  The
fuel is the length of the scanned list, which one step always shortens. -/
def replaceFuel : Nat → List Char → List Char → List Char → List Char
  | 0, _, _, s => s
  | _ + 1, _, _, [] => []
  | n + 1, pat, sub, c :: rest =>
    if isPrefixList pat (c :: rest) ∧ 1 ≤ pat.length then
      sub ++ replaceFuel n pat sub (List.drop (pat.length - 1) rest)
    else c :: replaceFuel n pat sub rest

/-- Python `s.replace(pat, sub)`. -/
def replaceStr (s pat sub : String) : String :=
  String.mk (replaceFuel s.data.length pat.data sub.data s.data)

/-- `expand_macros(pv, macros)` (lines 263-265) is Python
`pv.format(**macros)`; for the plain replacement fields the DSL uses this
is literal substitution of each "\x7bkey\x7d" by its value. -/
def expand_macros (pv : String) (macros : List (String × String)) : String :=
  macros.foldl (fun s kv => replaceStr s ("\x7b" ++ kv.1 ++ "\x7d") kv.2) pv

/-- Python `attr.startswith('_')`. -/
def startsWithUnderscore (s : String) : Bool :=
  match s.data with
  | c :: _ => c = '_'
  | [] => false

/-! ## PV group classes (`PVGroupMeta`, lines 268-315)

A class object carries the two tables the metaclass stores in the class
dictionary: `_subgroups_` (attr → SubGroup descriptor, with
subgroups-of-subgroups propagated to the top) and `_pvs_`
(attr → pvproperty, including dotted entries contributed by SubGroups). -/

mutual
inductive PVGroupClass where
  | mk : List (String × SubGroupDecl) → List (String × PVSpec) → PVGroupClass

inductive SubGroupDecl where
  | mk : String → List (String × String) → PVGroupClass → SubGroupDecl
end

def PVGroupClass.subgroups_ : PVGroupClass → List (String × SubGroupDecl)
  | .mk s _ => s

def PVGroupClass.pvs_ : PVGroupClass → List (String × PVSpec)
  | .mk _ p => p

/-- The SubGroup descriptor's `prefix` (already resolved by
`SubGroup.__set_name__`). -/
def SubGroupDecl.sgPrefix : SubGroupDecl → String
  | .mk p _ _ => p

def SubGroupDecl.sgMacros : SubGroupDecl → List (String × String)
  | .mk _ m _ => m

def SubGroupDecl.group_cls : SubGroupDecl → PVGroupClass
  | .mk _ _ c => c

/-- One entry of a class body: a `pvproperty` descriptor (carrying the
`PVSpec` built by `pvproperty.__init__`, before `__set_name__` runs) or a
`SubGroup` descriptor (optional explicit prefix, macros, and the target
group class). -/
inductive ClassMember where
  | prop : PVSpec → ClassMember
  | sub : Option String → List (String × String) → PVGroupClass → ClassMember

/-- `SubGroup.__set_name__` (lines 252-255): when no explicit prefix was
given the prefix becomes the attribute name followed by the attribute
separator (`':'` by default). -/
def memberSubgroup (attr : String) : ClassMember → Option SubGroupDecl
  | .sub po m cls => some (.mk (po.getD (attr ++ ":")) m cls)
  | .prop _ => none

/-- `PVGroupMeta.find_subgroups` (lines 275-282): the SubGroup members of
the class body, skipping attributes that start with an underscore. -/
def findSubgroups (dct : List (String × ClassMember)) :
    List (String × SubGroupDecl) :=
  dct.filterMap (fun p =>
    if startsWithUnderscore p.1 then none
    else (memberSubgroup p.1 p.2).map (fun sg => (p.1, sg)))

/-- The `_subgroups_` accumulation of `PVGroupMeta.__new__` (lines
297-308): each SubGroup member followed by its propagated
subgroups-of-subgroups under dotted names. -/
def subgroupEntries (dct : List (String × ClassMember)) :
    List (String × SubGroupDecl) :=
  (findSubgroups dct).flatMap (fun p =>
    (p.1, p.2) ::
      p.2.group_cls.subgroups_.map (fun q => (p.1 ++ "." ++ q.1, q.2)))

/-- `PVGroupMeta.find_pvproperties` (lines 284-295): pvproperty members
yield themselves (with the `__set_name__` attr/name update applied, which
is what `_create_pvdb` later observes); SubGroup members yield every entry
of the subgroup class's `_pvs_` under a dotted attribute name. -/
def findPvproperties (dct : List (String × ClassMember)) :
    List (String × PVSpec) :=
  dct.flatMap (fun p =>
    if startsWithUnderscore p.1 then []
    else
      match p.2 with
      | .prop spec => [(p.1, pvproperty.set_name spec p.1)]
      | .sub _ _ cls => cls.pvs_.map (fun q => (p.1 ++ "." ++ q.1, q.2)))

/-- `PVGroupMeta.__new__` (lines 297-315): build `_subgroups_` and `_pvs_`
as OrderedDicts in scan order. -/
def PVGroupMeta.new (dct : List (String × ClassMember)) : PVGroupClass :=
  .mk (odExtend [] (subgroupEntries dct)) (odExtend [] (findPvproperties dct))

/-! ## PV group instances (`PVGroupBase`, lines 332-391) -/

/-- `type_map` (lines 334-338): dtype → Pvproperty channel class; any
other dtype raises `KeyError` on subscript. -/
inductive PvpropertyKind where
  | PvpropertyString
  | PvpropertyInteger
  | PvpropertyDouble
deriving DecidableEq, Repr

def type_map : Dtype → Except PyExc PvpropertyKind
  | .str => .ok .PvpropertyString
  | .int => .ok .PvpropertyInteger
  | .float => .ok .PvpropertyDouble
  | .listType => .error .KeyError

/-- `default_values` (lines 340-344). -/
def default_values : Dtype → Except PyExc PyValue
  | .str => .ok (.str "-")
  | .int => .ok (.int 0)
  | .float => .ok (.float 0)
  | .listType => .error .KeyError

/-- The ChannelData instance `channeldata_from_pvspec` builds: the channel
class picked from `type_map`, the initial value, and the pvspec. -/
structure ChannelData where
  cls : PvpropertyKind
  value : PyValue
  pvspec : PVSpec

/-- The `full_pvname` computation of `channeldata_from_pvspec` (line 320):
`expand_macros(group.prefix + pvspec.name, group.macros)`; concatenating a
`None` name onto the prefix raises `TypeError`. -/
def full_pvname_of (groupPrefix : String) (groupMacros : List (String × String))
    (spec : PVSpec) : Except PyExc String :=
  match spec.name with
  | some n => .ok (expand_macros (groupPrefix ++ n) groupMacros)
  | none => .error .TypeError

/-- The initial value `channeldata_from_pvspec` picks (lines 321-324):
`pvspec.value` when given, otherwise `group.default_values[pvspec.dtype]`. -/
def initial_value (spec : PVSpec) : Except PyExc PyValue :=
  match spec.value with
  | some v => .ok v
  | none => default_values spec.dtype

/-- `channeldata_from_pvspec` (lines 318-329), relative to the owning
group's (already expanded) prefix and macros. -/
def channeldata_from_pvspec (groupPrefix : String)
    (groupMacros : List (String × String)) (spec : PVSpec) :
    Except PyExc (String × ChannelData) :=
  match full_pvname_of groupPrefix groupMacros spec with
  | .error e => .error e
  | .ok full_pvname =>
    match initial_value spec with
    | .error e => .error e
    | .ok value =>
      match type_map spec.dtype with
      | .error e => .error e
      | .ok cls => .ok (full_pvname, ⟨cls, value, spec⟩)

/-- A constructed `PVGroupBase` instance: expanded prefix, macros, `pvdb`,
`attr_pvdb`, and the recursively constructed subgroup instances. -/
inductive PVGroupInstance where
  | mk : String → List (String × String) → List (String × ChannelData) →
      List (String × ChannelData) → List (String × PVGroupInstance) →
      PVGroupInstance

def PVGroupInstance.pvPrefix : PVGroupInstance → String
  | .mk p _ _ _ _ => p

def PVGroupInstance.macros : PVGroupInstance → List (String × String)
  | .mk _ m _ _ _ => m

def PVGroupInstance.pvdb : PVGroupInstance → List (String × ChannelData)
  | .mk _ _ d _ _ => d

def PVGroupInstance.attr_pvdb : PVGroupInstance → List (String × ChannelData)
  | .mk _ _ _ a _ => a

def PVGroupInstance.groups : PVGroupInstance → List (String × PVGroupInstance)
  | .mk _ _ _ _ g => g

/-- `_create_pvdb` (lines 369-374): the owning group of a `_pvs_` entry —
`self.groups[attr.rsplit('.', 1)[0]]` for a dotted attr, `self` otherwise
— supplying the (prefix, macros) pair `channeldata_from_pvspec` reads. -/
def groupEnvFor (selfPrefix : String) (selfMacros : List (String × String))
    (groups : List (String × PVGroupInstance)) (attr : String) :
    Except PyExc (String × List (String × String)) :=
  match rsplitDot attr with
  | some gsplit =>
    match dictGet groups gsplit.1 with
    | .error e => .error e
    | .ok g => .ok (g.pvPrefix, g.macros)
  | none => .ok (selfPrefix, selfMacros)

/-- The full PV name `_create_pvdb` registers for one `_pvs_` entry. -/
def declaredPvname (selfPrefix : String) (selfMacros : List (String × String))
    (groups : List (String × PVGroupInstance)) (entry : String × PVSpec) :
    Except PyExc String :=
  match groupEnvFor selfPrefix selfMacros groups entry.1 with
  | .error e => .error e
  | .ok env => full_pvname_of env.1 env.2 entry.2

/-- One iteration of the `_pvs_` loop of `_create_pvdb` (lines 369-382):
resolve the owning group, build the ChannelData, then assign
`pvdb[pvname]` and `attr_pvdb[attr]`. -/
def create_pvdb_step (selfPrefix : String) (selfMacros : List (String × String))
    (groups : List (String × PVGroupInstance))
    (dbs : List (String × ChannelData) × List (String × ChannelData))
    (entry : String × PVSpec) :
    Except PyExc (List (String × ChannelData) × List (String × ChannelData)) :=
  match groupEnvFor selfPrefix selfMacros groups entry.1 with
  | .error e => .error e
  | .ok env =>
    match channeldata_from_pvspec env.1 env.2 entry.2 with
    | .error e => .error e
    | .ok r => .ok (odInsert dbs.1 r.1 r.2, odInsert dbs.2 entry.1 r.2)

/-- The `_pvs_` loop of `_create_pvdb`, in `_pvs_` order. -/
def create_pvdb_pvs (selfPrefix : String) (selfMacros : List (String × String))
    (groups : List (String × PVGroupInstance))
    (dbs : List (String × ChannelData) × List (String × ChannelData)) :
    List (String × PVSpec) →
    Except PyExc (List (String × ChannelData) × List (String × ChannelData))
  | [] => .ok dbs
  | e :: rest =>
    match create_pvdb_step selfPrefix selfMacros groups dbs e with
    | .error er => .error er
    | .ok dbs2 => create_pvdb_pvs selfPrefix selfMacros groups dbs2 rest

/-- `PVGroupBase.__init__` plus `_create_pvdb` (lines 346-382): expand the
prefix with the macros, construct every subgroup instance (prefix
`self.prefix + subgroup.prefix`, macros `dict(self.macros)` updated with
the subgroup's), then run the `_pvs_` loop.  The `fuel` argument bounds
the recursion depth, as Python's recursion limit does. -/
def constructFuel : Nat → PVGroupClass → String → List (String × String) →
    Except PyExc PVGroupInstance
  | 0, _, _, _ => .error .RecursionError
  | fuel + 1, cls, pref0, macros0 =>
    let selfMacros := macros0
    let selfPrefix := expand_macros pref0 selfMacros
    let groupsE := cls.subgroups_.foldlM
      (fun (acc : List (String × PVGroupInstance)) p =>
        (match constructFuel fuel p.2.group_cls (selfPrefix ++ p.2.sgPrefix)
            (odExtend selfMacros p.2.sgMacros) with
         | .error e => .error e
         | .ok inst => .ok (odInsert acc p.1 inst) :
          Except PyExc (List (String × PVGroupInstance))))
      []
    match groupsE with
    | .error e => .error e
    | .ok groups =>
      match create_pvdb_pvs selfPrefix selfMacros groups ([], []) cls.pvs_ with
      | .error e => .error e
      | .ok dbs => .ok (.mk selfPrefix selfMacros dbs.1 dbs.2 groups)

/-- The list of full PV names the `_pvs_` loop of `_create_pvdb` computes,
entry by entry, in `_pvs_` order (failing where the loop would fail). -/
def mapPvnames (selfPrefix : String) (selfMacros : List (String × String))
    (groups : List (String × PVGroupInstance)) :
    List (String × PVSpec) → Except PyExc (List String)
  | [] => .ok []
  | e :: rest =>
    match declaredPvname selfPrefix selfMacros groups e with
    | .error er => .error er
    | .ok n =>
      match mapPvnames selfPrefix selfMacros groups rest with
      | .error er => .error er
      | .ok ns => .ok (n :: ns)

/-! ## Concrete sample data used to exercise the embedding -/

/-- A non-coroutine callable (e.g. a plain `def`). -/
def syncCallable : PyCallable := ⟨false, true, true, fun v => v⟩

/-- An `async def` whose signature binds neither two nor three positional
arguments (e.g. `async def f(): ...`). -/
def asyncNonBindable : PyCallable := ⟨true, false, false, fun v => v⟩

/-- An `async def (self, instance)` getter. -/
def asyncGetter : PyCallable := ⟨true, true, false, fun v => v⟩

/-- The pvspec of a bare `pvproperty()` with integer dtype, before
`__set_name__` runs. -/
def samplePositionSpec : PVSpec := ⟨none, none, none, none, .int, none, none⟩

/-- A subgroup class with a single pvproperty `position`. -/
def sampleMotorCls : PVGroupClass :=
  PVGroupMeta.new [("position", .prop samplePositionSpec)]

/-- A class body declaring a SubGroup `motor` followed by a pvproperty
`rotation`. -/
def sampleDct : List (String × ClassMember) :=
  [("motor", .sub none [] sampleMotorCls),
   ("rotation", .prop ⟨none, none, none, none, .float, none, none⟩)]

def emptyInstance : PVGroupInstance := .mk "" [] [] [] []

def sampleInstE : Except PyExc PVGroupInstance :=
  constructFuel 3 (PVGroupMeta.new sampleDct) "PRE:" []

def sampleInst : PVGroupInstance :=
  match sampleInstE with
  | .ok i => i
  | .error _ => emptyInstance

/-- Two pvproperties declared under different attributes but with the same
explicit PV name `"X"`. -/
def dupSpecX : PVSpec := ⟨none, none, none, some "X", .int, none, none⟩

def dupDct : List (String × ClassMember) :=
  [("p1", .prop dupSpecX), ("p2", .prop dupSpecX)]

def dupInstE : Except PyExc PVGroupInstance :=
  constructFuel 2 (PVGroupMeta.new dupDct) "PRE:" []

def dupInst : PVGroupInstance :=
  match dupInstE with
  | .ok i => i
  | .error _ => emptyInstance

/-! ## Theorems -/

/-- C1: every numeric tunable named in the configuration surface —
minimum/maximum search retry interval, search retirement age,
retired-search retry cadence, subscription-restart pacing interval,
maximum reconnection attempts before declaring a Circuit dead, maximum
subscription batch byte size, and the default timeout — can be overridden
per Context at Context construction time; an omitted override falls back
to the module-level constant. -/
theorem context_tunables_overridable (a b c d e : Rat) (f g : Nat) (h : Rat) :
    Context.construct (some a) (some b) (some c) (some d) (some e) (some f)
        (some g) (some h) = ⟨a, b, c, d, e, f, g, h⟩ ∧
    Context.construct none none none none none none none none =
      ⟨MIN_RETRY_SEARCHES_INTERVAL, MAX_RETRY_SEARCHES_INTERVAL,
       (SEARCH_RETIREMENT_AGE : Rat), (RETRY_RETIRED_SEARCHES_INTERVAL : Rat),
       RESTART_SUBS_PERIOD, CIRCUIT_DEATH_ATTEMPTS, EVENT_ADD_BATCH_MAX_BYTES,
       (TIMEOUT : Rat)⟩ :=
  ⟨rfl, rfl⟩

/-- C2: the module-level bindings of `ChannelReadError` (after both
definitions in the file), `DisconnectedError` and
`ContextDisconnectedError` are all subclasses of `ClientException`, so
catching `ClientException` catches all of them. -/
theorem client_exception_hierarchy :
    moduleLookup "ChannelReadError" = some PyClass.ChannelReadError ∧
    moduleLookup "DisconnectedError" = some PyClass.DisconnectedError ∧
    moduleLookup "ContextDisconnectedError" =
      some PyClass.ContextDisconnectedError ∧
    issubclass PyClass.ChannelReadError PyClass.ClientException = true ∧
    issubclass PyClass.DisconnectedError PyClass.ClientException = true ∧
    issubclass PyClass.ContextDisconnectedError PyClass.ClientException = true :=
  ⟨rfl, rfl, rfl, rfl, rfl, rfl⟩

/-- C10: `GLOBAL_DEFAULT_TIMEOUT` is the integer 2 when
`CAPROTO_DEFAULT_TIMEOUT` is unset, and the variable's raw string value —
with no numeric conversion — when it is set. -/
theorem global_default_timeout_env (environ : List (String × String)) :
    (environ.find? (fun p => p.1 == "CAPROTO_DEFAULT_TIMEOUT") = none →
      GLOBAL_DEFAULT_TIMEOUT environ = PyScalar.int 2) ∧
    (∀ k v, environ.find? (fun p => p.1 == "CAPROTO_DEFAULT_TIMEOUT") =
        some (k, v) →
      GLOBAL_DEFAULT_TIMEOUT environ = PyScalar.str v) := by
  constructor
  · intro h
    simp [GLOBAL_DEFAULT_TIMEOUT, environGet, h]
  · intro k v h
    simp [GLOBAL_DEFAULT_TIMEOUT, environGet, h]

/-- Witness for C10 at concrete environments: unset gives the int 2, set
gives the raw string (here "5.5"). -/
theorem global_default_timeout_env_witness :
    GLOBAL_DEFAULT_TIMEOUT [] = PyScalar.int 2 ∧
    GLOBAL_DEFAULT_TIMEOUT [("CAPROTO_DEFAULT_TIMEOUT", "5.5")] =
      PyScalar.str "5.5" :=
  ⟨(global_default_timeout_env []).1 rfl,
   (global_default_timeout_env [("CAPROTO_DEFAULT_TIMEOUT", "5.5")]).2
     "CAPROTO_DEFAULT_TIMEOUT" "5.5" rfl⟩

/-- C3: the retry interval for an unresolved name is never below
`MIN_RETRY_SEARCHES_INTERVAL` (0.03 s) and never exceeds
`MAX_RETRY_SEARCHES_INTERVAL` (5 s); each failed attempt doubles it,
capped at the maximum. -/
theorem search_retry_backoff_bounds (n : Nat) :
    MIN_RETRY_SEARCHES_INTERVAL = 3 / 100 ∧
    MAX_RETRY_SEARCHES_INTERVAL = 5 ∧
    MIN_RETRY_SEARCHES_INTERVAL ≤ retryIntervalAfter n ∧
    retryIntervalAfter n ≤ MAX_RETRY_SEARCHES_INTERVAL ∧
    retryIntervalAfter (n + 1) =
      min (2 * retryIntervalAfter n) MAX_RETRY_SEARCHES_INTERVAL := by
  have key : ∀ m : Nat, MIN_RETRY_SEARCHES_INTERVAL ≤ retryIntervalAfter m ∧
      retryIntervalAfter m ≤ MAX_RETRY_SEARCHES_INTERVAL := by
    intro m
    induction m with
    | zero =>
      refine ⟨le_refl _, ?_⟩
      norm_num [retryIntervalAfter, MIN_RETRY_SEARCHES_INTERVAL,
        MAX_RETRY_SEARCHES_INTERVAL]
    | succ k ih =>
      obtain ⟨h1, h2⟩ := ih
      have hminpos : (0 : Rat) < MIN_RETRY_SEARCHES_INTERVAL := by
        norm_num [MIN_RETRY_SEARCHES_INTERVAL]
      constructor
      · have hdouble : MIN_RETRY_SEARCHES_INTERVAL ≤ 2 * retryIntervalAfter k := by
          linarith
        have hmax : MIN_RETRY_SEARCHES_INTERVAL ≤ MAX_RETRY_SEARCHES_INTERVAL := by
          norm_num [MIN_RETRY_SEARCHES_INTERVAL, MAX_RETRY_SEARCHES_INTERVAL]
        exact le_min hdouble hmax
      · exact min_le_right (2 * retryIntervalAfter k) MAX_RETRY_SEARCHES_INTERVAL
  exact ⟨rfl, rfl, (key n).1, (key n).2, rfl⟩

/-- C4: after `CIRCUIT_DEATH_ATTEMPTS` (3) consecutive failed
connect/reconnect attempts a Circuit is `Dead`; every operation on a dead
Circuit fails with `DisconnectedError`, a dead Circuit is never touched by
the reconnect loop again, and the Context registry eviction removes every
dead Circuit. -/
theorem circuit_death_after_attempts (c : Circuit)
    (h : c.failedConnectAttempts = 0) :
    CIRCUIT_DEATH_ATTEMPTS = 3 ∧
    c.noteConnectFailure.noteConnectFailure.noteConnectFailure.state =
      CircuitState.Dead ∧
    (∀ d : Circuit, d.state = CircuitState.Dead →
      d.submitOp = Except.error PyExc.DisconnectedError) ∧
    (∀ d : Circuit, d.state = CircuitState.Dead →
      ∀ b, d.reconnectStep b = d) ∧
    (∀ registry : List (String × Circuit),
      ∀ p ∈ Context.evictDeadCircuits registry,
        p.2.state ≠ CircuitState.Dead) := by
  refine ⟨rfl, ?_, ?_, ?_, ?_⟩
  · have h1 : c.noteConnectFailure = ⟨.Disconnected, 1⟩ := by
      simp [Circuit.noteConnectFailure, h, CIRCUIT_DEATH_ATTEMPTS]
    rw [h1]
    rfl
  · intro d hd
    simp [Circuit.submitOp, hd]
  · intro d hd b
    simp [Circuit.reconnectStep, hd]
  · intro registry p hp
    simpa using (List.mem_filter.mp hp).2

/-- Witness for C4: a concrete connected circuit with no failed attempts
dies after three consecutive failures. -/
theorem circuit_death_after_attempts_witness :
    (Circuit.mk CircuitState.Connected
        0).noteConnectFailure.noteConnectFailure.noteConnectFailure.state =
      CircuitState.Dead :=
  (circuit_death_after_attempts ⟨CircuitState.Connected, 0⟩ rfl).2.1

/-- Invariant of the batching fold: every finished batch and the
accumulating batch stay under the cap. -/
theorem batchFold_bounded (cap : Nat) :
    ∀ (events : List Nat) (done : List (List Nat)) (cur : List Nat),
    (∀ b ∈ done, b.sum ≤ cap) → cur.sum ≤ cap →
    (∀ b ∈ (events.foldl (addEventToBatches cap) (done, cur)).1,
      b.sum ≤ cap) ∧
    (events.foldl (addEventToBatches cap) (done, cur)).2.sum ≤ cap := by
  intro events
  induction events with
  | nil =>
    intro done cur hd hc
    exact ⟨hd, hc⟩
  | cons e es ih =>
    intro done cur hd hc
    simp only [List.foldl_cons]
    by_cases hle : cur.sum + e ≤ cap
    · have hstep : addEventToBatches cap (done, cur) e = (done, cur ++ [e]) := by
        simp [addEventToBatches, hle]
      rw [hstep]
      exact ih done (cur ++ [e]) hd (by simpa using hle)
    · have hcurnew : (if e ≤ cap then [e] else ([] : List Nat)).sum ≤ cap := by
        by_cases he : e ≤ cap <;> simp [he]
      by_cases hnil : cur = []
      · have he : ¬e ≤ cap := by
          intro he
          exact hle (by simpa [hnil] using he)
        have hstep : addEventToBatches cap (done, cur) e =
            (done, if e ≤ cap then [e] else []) := by
          simp [addEventToBatches, hle, hnil, he]
        rw [hstep]
        exact ih done _ hd hcurnew
      · have hstep : addEventToBatches cap (done, cur) e =
            (done ++ [cur], if e ≤ cap then [e] else []) := by
          simp [addEventToBatches, hle, hnil]
        rw [hstep]
        refine ih (done ++ [cur]) _ ?_ hcurnew
        intro b hb
        rcases List.mem_append.mp hb with hb | hb
        · exact hd b hb
        · have : b = cur := by simpa using hb
          subst this
          exact hc

/-- C5: every batch of subscription event data delivered to a
subscription callback has encoded size at most
`EVENT_ADD_BATCH_MAX_BYTES` (65536 bytes). -/
theorem event_batches_bounded (events : List Nat) :
    EVENT_ADD_BATCH_MAX_BYTES = 65536 ∧
    ∀ b ∈ batchEvents EVENT_ADD_BATCH_MAX_BYTES events,
      b.sum ≤ EVENT_ADD_BATCH_MAX_BYTES := by
  refine ⟨rfl, ?_⟩
  intro b hb
  have key := batchFold_bounded EVENT_ADD_BATCH_MAX_BYTES events [] []
    (by simp) (by simp)
  simp only [batchEvents] at hb
  by_cases hnil :
      (events.foldl (addEventToBatches EVENT_ADD_BATCH_MAX_BYTES) ([], [])).2 = []
  · rw [if_pos hnil] at hb
    exact key.1 b hb
  · rw [if_neg hnil] at hb
    rcases List.mem_append.mp hb with hb | hb
    · exact key.1 b hb
    · have : b =
          (events.foldl (addEventToBatches EVENT_ADD_BATCH_MAX_BYTES)
            ([], [])).2 := by
        simpa using hb
      subst this
      exact key.2

/-- Witness for C5 on a concrete event stream: payloads of 40000, 40000
and 70000 bytes yield the batches [40000] and [40000] — no batch exceeds
the cap, and the 70000-byte event (larger than the cap by itself) is
dropped rather than delivered. -/
theorem event_batches_bounded_witness :
    [40000].sum ≤ EVENT_ADD_BATCH_MAX_BYTES ∧
    batchEvents EVENT_ADD_BATCH_MAX_BYTES [40000, 40000, 70000] =
      [[40000], [40000]] :=
  ⟨(event_batches_bounded [40000, 40000, 70000]).2 [40000] (by decide), rfl⟩

/-- C9: for a channel whose `PVSpec` has `put=None`, the putter installed
by `PvpropertyData.__init__` is `PVGroupBase.group_write`, which returns
its value argument unchanged, so `verify_value` is the identity on
proposed values. -/
theorem verify_value_default_is_identity (s : PVSpec) (hput : s.put = none)
    (v : PyValue) :
    PvpropertyData.putter s = PVGroupBase.group_write ∧
    PVGroupBase.group_write v = v ∧
    PvpropertyData.verify_value s v = v := by
  refine ⟨?_, rfl, ?_⟩
  · simp [PvpropertyData.putter, hput]
  · simp [PvpropertyData.verify_value, PvpropertyData.putter, hput,
      PVGroupBase.group_write]

/-- Witness for C9 at a concrete pvspec with no putter and the value 7. -/
theorem verify_value_default_is_identity_witness :
    PvpropertyData.verify_value ⟨none, none, none, none, .int, none, none⟩
      (PyValue.int 7) = PyValue.int 7 :=
  (verify_value_default_is_identity ⟨none, none, none, none, .int, none, none⟩
    rfl (PyValue.int 7)).2.2

/-- C7: `PVSpec` construction with a non-None getter or putter succeeds
exactly when the callable is a coroutine function whose signature binds
`(group, instance)` (getter) or `(group, instance, value)` (putter); a
non-coroutine callable is rejected with `AssertionError` and a coroutine
whose signature cannot bind those arguments with `RuntimeError` (the
putter checks run after the getter checks pass). -/
theorem pvspec_callable_validation (g p : Option PyCallable)
    (attr nm : Option String) (dt0 : Dtype) (value : Option PyValue)
    (ag : Option String) :
    ((∃ s, PVSpec.new g p attr nm (some dt0) value ag = Except.ok s) ↔
      (∀ gc, g = some gc → gc.isCoroutineFunction ∧ gc.bindsGroupInstance) ∧
      (∀ pc, p = some pc →
        pc.isCoroutineFunction ∧ pc.bindsGroupInstanceValue)) ∧
    (∀ gc, g = some gc → ¬gc.isCoroutineFunction →
      PVSpec.new g p attr nm (some dt0) value ag =
        Except.error PyExc.AssertionError) ∧
    (∀ gc, g = some gc → gc.isCoroutineFunction → ¬gc.bindsGroupInstance →
      PVSpec.new g p attr nm (some dt0) value ag =
        Except.error PyExc.RuntimeError) ∧
    (∀ pc, checkGetter g = Except.ok () → p = some pc →
      ¬pc.isCoroutineFunction →
      PVSpec.new g p attr nm (some dt0) value ag =
        Except.error PyExc.AssertionError) ∧
    (∀ pc, checkGetter g = Except.ok () → p = some pc →
      pc.isCoroutineFunction → ¬pc.bindsGroupInstanceValue →
      PVSpec.new g p attr nm (some dt0) value ag =
        Except.error PyExc.RuntimeError) := by
  have hnew : PVSpec.new g p attr nm (some dt0) value ag =
      (match checkGetter g with
       | .error e => .error e
       | .ok _ =>
         match checkPutter p with
         | .error e => .error e
         | .ok _ => .ok ⟨g, p, attr, nm, dt0, value, ag⟩) := rfl
  refine ⟨?_, ?_, ?_, ?_, ?_⟩
  · constructor
    · rintro ⟨s, hs⟩
      rw [hnew] at hs
      cases hg : checkGetter g with
      | error e =>
        rw [hg] at hs
        simp at hs
      | ok u =>
        rw [hg] at hs
        cases hp : checkPutter p with
        | error e =>
          rw [hp] at hs
          simp at hs
        | ok u2 =>
          constructor
          · intro gc hgc
            subst hgc
            by_cases h1 : gc.isCoroutineFunction
            · by_cases h2 : gc.bindsGroupInstance
              · exact ⟨h1, h2⟩
              · simp [checkGetter, h1, h2] at hg
            · simp [checkGetter, h1] at hg
          · intro pc hpc
            subst hpc
            by_cases h1 : pc.isCoroutineFunction
            · by_cases h2 : pc.bindsGroupInstanceValue
              · exact ⟨h1, h2⟩
              · simp [checkPutter, h1, h2] at hp
            · simp [checkPutter, h1] at hp
    · rintro ⟨hg, hp⟩
      refine ⟨⟨g, p, attr, nm, dt0, value, ag⟩, ?_⟩
      have hg' : checkGetter g = .ok () := by
        cases g with
        | none => rfl
        | some gc =>
          obtain ⟨h1, h2⟩ := hg gc rfl
          simp [checkGetter, h1, h2]
      have hp' : checkPutter p = .ok () := by
        cases p with
        | none => rfl
        | some pc =>
          obtain ⟨h1, h2⟩ := hp pc rfl
          simp [checkPutter, h1, h2]
      rw [hnew, hg', hp']
  · intro gc hgc hnc
    subst hgc
    rw [hnew, show checkGetter (some gc) = .error .AssertionError by
      simp [checkGetter, hnc]]
  · intro gc hgc h1 h2
    subst hgc
    rw [hnew, show checkGetter (some gc) = .error .RuntimeError by
      simp [checkGetter, h1, h2]]
  · intro pc hgok hpc hnc
    subst hpc
    rw [hnew, hgok, show checkPutter (some pc) = .error .AssertionError by
      simp [checkPutter, hnc]]
  · intro pc hgok hpc h1 h2
    subst hpc
    rw [hnew, hgok, show checkPutter (some pc) = .error .RuntimeError by
      simp [checkPutter, h1, h2]]

/-- Witness for C7 at concrete callables: a plain function is rejected
with `AssertionError`, a coroutine with an unbindable signature with
`RuntimeError`, and a bindable coroutine getter is accepted. -/
theorem pvspec_callable_validation_witness :
    PVSpec.new (some syncCallable) none none none (some Dtype.int) none none =
      Except.error PyExc.AssertionError ∧
    PVSpec.new (some asyncNonBindable) none none none (some Dtype.int) none
        none = Except.error PyExc.RuntimeError ∧
    (∃ s, PVSpec.new (some asyncGetter) none none none (some Dtype.int) none
        none = Except.ok s) :=
  ⟨(pvspec_callable_validation (some syncCallable) none none none
      Dtype.int none none).2.1 syncCallable rfl (by simp [syncCallable]),
   (pvspec_callable_validation (some asyncNonBindable) none none none
      Dtype.int none none).2.2.1 asyncNonBindable rfl (by simp [asyncNonBindable])
      (by simp [asyncNonBindable]),
   (pvspec_callable_validation (some asyncGetter) none none none
      Dtype.int none none).1.mpr
     ⟨fun gc hgc => by
        cases hgc
        exact ⟨by simp [asyncGetter], by simp [asyncGetter]⟩,
      fun pc hpc => by cases hpc⟩⟩

/-- C8: with `dtype=None` the inferred dtype is `type(value[0])` when a
(subscriptable, non-empty) value is given and the default dtype `int` when
`value` is `None`; the `value[0]` subscript is unguarded, so a
non-subscriptable scalar value (an int or a float) raises `TypeError`. -/
theorem pvspec_dtype_inference (attr nm ag : Option String) (v v0 : PyValue) :
    PVSpec.default_dtype = Dtype.int ∧
    PVSpec.new none none attr nm none none ag =
      Except.ok ⟨none, none, attr, nm, Dtype.int, none, ag⟩ ∧
    (v.getitem0 = Except.ok v0 →
      PVSpec.new none none attr nm none (some v) ag =
        Except.ok ⟨none, none, attr, nm, v0.typeOf, some v, ag⟩) ∧
    (∀ k : Int, PVSpec.new none none attr nm none (some (PyValue.int k)) ag =
      Except.error PyExc.TypeError) ∧
    (∀ q : Rat, PVSpec.new none none attr nm none (some (PyValue.float q)) ag =
      Except.error PyExc.TypeError) := by
  refine ⟨rfl, rfl, ?_, ?_, ?_⟩
  · intro h
    simp [PVSpec.new, inferDtype, h, Except.map, checkGetter, checkPutter]
  · intro k
    rfl
  · intro q
    rfl

/-- Witness for C8: a list value infers the dtype of its first element, a
scalar int value raises `TypeError`. -/
theorem pvspec_dtype_inference_witness :
    PVSpec.new none none none none none
        (some (PyValue.list [PyValue.float 1])) none =
      Except.ok ⟨none, none, none, none, Dtype.float,
        some (PyValue.list [PyValue.float 1]), none⟩ ∧
    PVSpec.new none none none none none (some (PyValue.int 5)) none =
      Except.error PyExc.TypeError :=
  ⟨(pvspec_dtype_inference none none none (PyValue.list [PyValue.float 1])
      (PyValue.float 1)).2.2.1 rfl,
   (pvspec_dtype_inference none none none (PyValue.int 5)
      (PyValue.int 0)).2.2.2.1 5⟩

/-- Assigning a fresh key into an ordered dict appends the entry. -/
theorem odInsert_of_not_mem {α : Type} (d : List (String × α)) (k : String)
    (v : α) (h : k ∉ d.map Prod.fst) : odInsert d k v = d ++ [(k, v)] := by
  have hfalse : d.any (fun p => p.1 == k) = false := by
    rw [List.any_eq_false]
    intro p hp hbeq
    have hmem : p.1 ∈ d.map Prod.fst := List.mem_map_of_mem Prod.fst hp
    rw [show p.1 = k by simpa using hbeq] at hmem
    exact h hmem
  simp [odInsert, hfalse]

/-- Assigning a sequence of entries with pairwise fresh keys into an
ordered dict appends them in order. -/
theorem odExtend_of_nodup {α : Type} :
    ∀ (l d : List (String × α)),
    (d.map Prod.fst ++ l.map Prod.fst).Nodup → odExtend d l = d ++ l := by
  intro l
  induction l with
  | nil =>
    intro d _
    simp [odExtend]
  | cons x xs ih =>
    intro d h
    have hx : x.1 ∉ d.map Prod.fst := by
      rcases List.nodup_append.mp h with ⟨-, -, hdisj⟩
      intro hmem
      exact hdisj hmem (by simp)
    show odExtend (odInsert d x.1 x.2) xs = d ++ x :: xs
    rw [odInsert_of_not_mem d x.1 x.2 hx]
    have h2 : ((d ++ [(x.1, x.2)]).map Prod.fst ++ xs.map Prod.fst).Nodup := by
      simpa [List.append_assoc] using h
    rw [ih (d ++ [(x.1, x.2)]) h2]
    simp

/-- `mapPvnames` produces one name per `_pvs_` entry. -/
theorem mapPvnames_length (sp : String) (sm : List (String × String))
    (groups : List (String × PVGroupInstance)) :
    ∀ (pvs : List (String × PVSpec)) (names : List String),
    mapPvnames sp sm groups pvs = Except.ok names →
    names.length = pvs.length := by
  intro pvs
  induction pvs with
  | nil =>
    intro names hn
    cases hn
    rfl
  | cons e rest ih =>
    intro names hn
    rw [mapPvnames] at hn
    cases hdp : declaredPvname sp sm groups e with
    | error er =>
      rw [hdp] at hn
      simp at hn
    | ok n =>
      rw [hdp] at hn
      cases hrest : mapPvnames sp sm groups rest with
      | error er =>
        rw [hrest] at hn
        simp at hn
      | ok ns =>
        rw [hrest] at hn
        cases hn
        simp [ih ns hrest]

/-- A successful `channeldata_from_pvspec` call registers the name that
`full_pvname_of` computes. -/
theorem channeldata_name (gp : String) (gm : List (String × String))
    (spec : PVSpec) (r : String × ChannelData)
    (h : channeldata_from_pvspec gp gm spec = Except.ok r) :
    full_pvname_of gp gm spec = Except.ok r.1 := by
  unfold channeldata_from_pvspec at h
  cases hfn : full_pvname_of gp gm spec with
  | error e =>
    rw [hfn] at h
    simp at h
  | ok nm =>
    rw [hfn] at h
    cases hv : initial_value spec with
    | error e =>
      rw [hv] at h
      simp at h
    | ok val =>
      rw [hv] at h
      cases hc : type_map spec.dtype with
      | error e =>
        rw [hc] at h
        simp at h
      | ok cls =>
        rw [hc] at h
        cases h
        rfl

/-- A successful `_create_pvdb` iteration assigns exactly the entry named
by `declaredPvname` into `pvdb` and the attr into `attr_pvdb`. -/
theorem create_pvdb_step_ok (sp : String) (sm : List (String × String))
    (groups : List (String × PVGroupInstance))
    (db1 db2 : List (String × ChannelData)) (e : String × PVSpec)
    (dbs2 : List (String × ChannelData) × List (String × ChannelData))
    (h : create_pvdb_step sp sm groups (db1, db2) e = Except.ok dbs2) :
    ∃ nm cd, declaredPvname sp sm groups e = Except.ok nm ∧
      dbs2 = (odInsert db1 nm cd, odInsert db2 e.1 cd) := by
  unfold create_pvdb_step at h
  split at h
  · simp at h
  · rename_i env henv
    split at h
    · simp at h
    · rename_i r hcd
      cases h
      refine ⟨r.1, r.2, ?_, rfl⟩
      unfold declaredPvname
      rw [henv]
      exact channeldata_name env.1 env.2 e.2 r hcd

/-- Key lemma for C6: when the `_pvs_` loop succeeds, the computed full PV
names are fresh, and the attrs are fresh, `pvdb` gains exactly the names
in `_pvs_` order and `attr_pvdb` gains exactly the attrs in `_pvs_`
order. -/
theorem create_pvdb_pvs_keys (sp : String) (sm : List (String × String))
    (groups : List (String × PVGroupInstance)) :
    ∀ (pvs : List (String × PVSpec)) (names : List String)
      (db1 db2 : List (String × ChannelData))
      (out : List (String × ChannelData) × List (String × ChannelData)),
    mapPvnames sp sm groups pvs = Except.ok names →
    create_pvdb_pvs sp sm groups (db1, db2) pvs = Except.ok out →
    (db1.map Prod.fst ++ names).Nodup →
    (db2.map Prod.fst ++ pvs.map Prod.fst).Nodup →
    out.1.map Prod.fst = db1.map Prod.fst ++ names ∧
    out.2.map Prod.fst = db2.map Prod.fst ++ pvs.map Prod.fst := by
  intro pvs
  induction pvs with
  | nil =>
    intro names db1 db2 out hn hout _ _
    cases hn
    cases hout
    simp
  | cons e rest ih =>
    intro names db1 db2 out hn hout hnd1 hnd2
    rw [mapPvnames] at hn
    cases hdp : declaredPvname sp sm groups e with
    | error er =>
      rw [hdp] at hn
      simp at hn
    | ok n =>
      rw [hdp] at hn
      cases hrest : mapPvnames sp sm groups rest with
      | error er =>
        rw [hrest] at hn
        simp at hn
      | ok ns =>
        rw [hrest] at hn
        cases hn
        rw [create_pvdb_pvs] at hout
        cases hstep : create_pvdb_step sp sm groups (db1, db2) e with
        | error er =>
          rw [hstep] at hout
          simp at hout
        | ok dbs2 =>
          rw [hstep] at hout
          obtain ⟨nm, cd, hnm, hdbs2⟩ :=
            create_pvdb_step_ok sp sm groups db1 db2 e dbs2 hstep
          have hnmn : nm = n := by
            rw [hdp] at hnm
            exact (Except.ok.inj hnm).symm
          subst hnmn
          subst hdbs2
          have hfresh1 : nm ∉ db1.map Prod.fst := by
            rcases List.nodup_append.mp hnd1 with ⟨-, -, hdisj⟩
            intro hmem
            exact hdisj hmem (by simp)
          have hfresh2 : e.1 ∉ db2.map Prod.fst := by
            rcases List.nodup_append.mp hnd2 with ⟨-, -, hdisj⟩
            intro hmem
            exact hdisj hmem (by simp)
          rw [odInsert_of_not_mem db1 nm cd hfresh1,
            odInsert_of_not_mem db2 e.1 cd hfresh2] at hout
          have hnd1' : ((db1 ++ [(nm, cd)]).map Prod.fst ++ ns).Nodup := by
            simpa [List.append_assoc] using hnd1
          have hnd2' :
              ((db2 ++ [(e.1, cd)]).map Prod.fst ++ rest.map Prod.fst).Nodup := by
            simpa [List.append_assoc] using hnd2
          obtain ⟨ho1, ho2⟩ := ih ns (db1 ++ [(nm, cd)]) (db2 ++ [(e.1, cd)])
            out hrest hout hnd1' hnd2'
          constructor
          · rw [ho1]
            simp
          · rw [ho2]
            simp

/-- A successful construction runs the `_pvs_` loop from empty tables over
the class's `_pvs_`, with the group's expanded prefix and macros and the
constructed subgroup instances. -/
theorem constructFuel_ok (fuel : Nat) (cls : PVGroupClass) (pref : String)
    (macros : List (String × String)) (inst : PVGroupInstance)
    (h : constructFuel fuel cls pref macros = Except.ok inst) :
    ∃ dbs, create_pvdb_pvs (expand_macros pref macros) macros inst.groups
        ([], []) cls.pvs_ = Except.ok dbs ∧
      inst.pvdb = dbs.1 ∧ inst.attr_pvdb = dbs.2 := by
  cases fuel with
  | zero => simp [constructFuel] at h
  | succ n =>
    simp only [constructFuel] at h
    split at h
    · simp at h
    · rename_i groups hgroups
      split at h
      · simp at h
      · rename_i dbs hdbs
        cases h
        exact ⟨dbs, hdbs, rfl, rfl⟩

/-- C6 (amended): constructing a `PVGroupBase` instance builds the PV
registration tables at construction time as ordered tables: `_pvs_` is
exactly the list of declared pvproperties (including the ones contributed
by SubGroups, at their declaration point) in class-body order, and —
provided the declared attribute names and the expanded full PV names are
pairwise distinct — `pvdb` and `attr_pvdb` receive one entry per declared
pvproperty, in declaration order. -/
theorem pvgroup_construction_ordered_table (fuel : Nat)
    (dct : List (String × ClassMember)) (pref : String)
    (macros : List (String × String)) (inst : PVGroupInstance)
    (names : List String)
    (hok : constructFuel fuel (PVGroupMeta.new dct) pref macros =
      Except.ok inst)
    (hnames : mapPvnames (expand_macros pref macros) macros inst.groups
      (PVGroupMeta.new dct).pvs_ = Except.ok names)
    (hnodup : names.Nodup)
    (hattrs : ((findPvproperties dct).map Prod.fst).Nodup) :
    (PVGroupMeta.new dct).pvs_ = findPvproperties dct ∧
    inst.attr_pvdb.map Prod.fst = (findPvproperties dct).map Prod.fst ∧
    inst.pvdb.map Prod.fst = names ∧
    inst.pvdb.length = (findPvproperties dct).length ∧
    inst.attr_pvdb.length = (findPvproperties dct).length := by
  have hpvs : (PVGroupMeta.new dct).pvs_ = findPvproperties dct := by
    show odExtend [] (findPvproperties dct) = findPvproperties dct
    rw [odExtend_of_nodup (findPvproperties dct) [] (by simpa using hattrs)]
    simp
  obtain ⟨dbs, hdbs, hpv, hapv⟩ :=
    constructFuel_ok fuel (PVGroupMeta.new dct) pref macros inst hok
  have hkeys := create_pvdb_pvs_keys (expand_macros pref macros) macros
    inst.groups (PVGroupMeta.new dct).pvs_ names [] [] dbs hnames hdbs
    (by simpa using hnodup) (by rw [hpvs]; simpa using hattrs)
  have hlen : names.length = (findPvproperties dct).length := by
    have := mapPvnames_length (expand_macros pref macros) macros inst.groups
      (PVGroupMeta.new dct).pvs_ names hnames
    rw [hpvs] at this
    exact this
  have h1 : inst.pvdb.map Prod.fst = names := by
    rw [hpv]
    simpa using hkeys.1
  have h2 : inst.attr_pvdb.map Prod.fst = (findPvproperties dct).map Prod.fst := by
    rw [hapv]
    have := hkeys.2
    rw [hpvs] at this
    simpa using this
  refine ⟨hpvs, h2, h1, ?_, ?_⟩
  · have : (inst.pvdb.map Prod.fst).length = names.length := by rw [h1]
    simpa using this.trans hlen
  · have : (inst.attr_pvdb.map Prod.fst).length =
        ((findPvproperties dct).map Prod.fst).length := by rw [h2]
    simpa using this

/-- Witness for C6 at a concrete class body with a SubGroup `motor`
(containing `position`) followed by a pvproperty `rotation`: both tables
list the entries in declaration order. -/
theorem pvgroup_construction_ordered_table_witness :
    sampleInst.attr_pvdb.map Prod.fst = ["motor.position", "rotation"] ∧
    sampleInst.pvdb.map Prod.fst = ["PRE:motor:position", "PRE:rotation"] := by
  have t := pvgroup_construction_ordered_table 3 sampleDct "PRE:" [] sampleInst
    ["PRE:motor:position", "PRE:rotation"] rfl rfl (by decide) (by decide)
  exact ⟨by rw [t.2.1]; rfl, t.2.2.1⟩

/-- Counterexample to C6 as stated: two pvproperties declared under
different attributes but with the same explicit PV name `"X"` collapse to
a single `pvdb` entry, so `pvdb` does not receive one entry per declared
pvproperty. -/
theorem pvgroup_dup_name_counterexample :
    dupInstE = Except.ok dupInst ∧
    (findPvproperties dupDct).length = 2 ∧
    dupInst.attr_pvdb.length = 2 ∧
    dupInst.pvdb.length = 1 ∧
    dupInst.pvdb.map Prod.fst = ["PRE:X"] :=
  ⟨rfl, rfl, rfl, rfl, rfl⟩

end Caproto
